import Mathlib

/-!
Shallow embedding of the traffic-detector persistence library
(`flow_processing_input.py` and `flow_processed_output.py`).

Modelling conventions:
* Python `float` coordinates and volumes are modelled as `Rat` (the code only
  ever compares them with `==`, which is exact on the values the code stores).
* `datetime.datetime` / `datetime.time` keys of the flow dictionaries are
  modelled as `Int` timestamps; the code treats them as opaque dictionary keys.
* Python `dict`s are modelled as association lists in insertion order
  (CPython dicts are insertion ordered, and `pickle` round-trips that order);
  Python's order-independent `dict.__eq__` is modelled by `pyDictEq`.
* A file is modelled by the `FileData` at its path: `absent` (no file),
  `text` (a file that is not a valid pickle stream), or `stream` (the ordered
  sequence of pickled values that `pickle.dump` wrote to it).
* Raised exceptions are modelled by `PyError`; the code never catches any.
-/

namespace Flow

/-- `Direction(Enum)` from `flow_processing_input.py`: possible direction of
the flow going through a detector. -/
inductive Direction where
  | north_bound
  | east_bound
  | south_bound
  | west_bound
deriving DecidableEq

/-- `shapely.geometry.Point` as the code uses it: a value exposing `x` and `y`
numeric accessors (coordinates modelled as `Rat`). -/
structure Point where
  x : Rat
  y : Rat
deriving DecidableEq

/-- Python `d[k]` / `k in d` on an insertion-ordered dictionary modelled as an
association list: the value at the first matching key, if any. -/
def dictLookup {β : Type} (k : Int) : List (Int × β) → Option β
  | [] => none
  | kv :: rest => if k = kv.1 then some kv.2 else dictLookup k rest

/-- Python `dict.__eq__` on a flow dictionary (timestamp keys, `float`
volumes): equal lengths and every key of the left dict present in the right
with an equal value.  On dicts (unique keys) this is exactly Python's
order-independent dictionary equality. -/
def pyDictEq (d1 d2 : List (Int × Rat)) : Bool :=
  decide (d1.length = d2.length) &&
    d1.all fun kv => decide (dictLookup kv.1 d2 = some kv.2)

/-- `DetectorsLocation` from `flow_processing_input.py`:
`detectors_location_dict : Dict[DetectorId, Tuple[Direction, Point]]` and
`year : int`.  The dictionary is an insertion-ordered association list. -/
structure DetectorsLocation where
  detectors_location_dict : List (Int × Direction × Point)
  year : Int
deriving DecidableEq

/-- `DetectorFlowData` from `flow_processing_input.py`: data from one traffic
flow detector. -/
structure DetectorFlowData where
  detector_id : Int
  direction : Direction
  flow_data : List (Int × Rat)
  name : String
  year : Int
deriving DecidableEq

/-- `GroundFlowData` from `flow_processing_input.py`: a list of
`DetectorFlowData`. -/
structure GroundFlowData where
  detector_flow_data : List DetectorFlowData
deriving DecidableEq

/-- `DetectorIdToRoadSection` from `flow_processed_output.py`: one
detector-ID/section-ID pair. -/
structure DetectorIdToRoadSection where
  detector_id : Int
  section_id : Int
deriving DecidableEq

/-- `DetectorIdToRoadSections` from `flow_processed_output.py`: a list of
`DetectorIdToRoadSection`. -/
structure DetectorIdToRoadSections where
  aimsun_detector_locations : List DetectorIdToRoadSection
deriving DecidableEq

/-- `OutputFlowData` from `flow_processed_output.py`: output flow data from
one detector. -/
structure OutputFlowData where
  detector_id : Int
  flow_data : List (Int × Rat)
  section_id : Int
deriving DecidableEq

/-- `OutputFlowDataSet` from `flow_processed_output.py`: a list of
`OutputFlowData` plus a `year : int` attribute (declared but never exported
nor compared; an unset attribute is modelled by the field's value being
irrelevant to every operation). -/
structure OutputFlowDataSet where
  flow_data_set : List OutputFlowData
  year : Int
deriving DecidableEq

/-- `DetectorsLocation.__eq__` (`flow_processing_input.py`, lines 95-114):
unequal years give `False`; then every key of `self`'s dictionary must occur
in `other`'s with the same direction and the same point coordinates (`x` and
`y` compared componentwise).  There is no size comparison. -/
def DetectorsLocation.eq (self other : DetectorsLocation) : Bool :=
  if self.year ≠ other.year then
    false
  else
    self.detectors_location_dict.all fun kv =>
      match dictLookup kv.1 other.detectors_location_dict with
      | some ov =>
          decide (kv.2.1 = ov.1) &&
          decide (kv.2.2.x = ov.2.x) && decide (kv.2.2.y = ov.2.y)
      | none => false

/-- The per-element comparison inside `GroundFlowData.__eq__`
(`flow_processing_input.py`, lines 200-204): all five attributes equal, the
flow dictionaries compared with Python dictionary equality. -/
def DetectorFlowData.fieldEq (a b : DetectorFlowData) : Bool :=
  decide (a.detector_id = b.detector_id) &&
  decide (a.direction = b.direction) &&
  pyDictEq a.flow_data b.flow_data &&
  decide (a.name = b.name) &&
  decide (a.year = b.year)

/-- `GroundFlowData.__eq__` (`flow_processing_input.py`, lines 190-206):
differing lengths give `False`; otherwise the index-aligned loop (which sets
a flag and never breaks) computes the conjunction of the per-index
comparisons, modelled by `all` over the zip of the two lists. -/
def GroundFlowData.eq (self other : GroundFlowData) : Bool :=
  if self.detector_flow_data.length ≠ other.detector_flow_data.length then
    false
  else
    (self.detector_flow_data.zip other.detector_flow_data).all fun p =>
      DetectorFlowData.fieldEq p.1 p.2

/-- The per-element comparison inside `DetectorIdToRoadSections.__eq__`
(`flow_processed_output.py`, lines 111-112). -/
def DetectorIdToRoadSection.fieldEq (a b : DetectorIdToRoadSection) : Bool :=
  decide (a.detector_id = b.detector_id) && decide (a.section_id = b.section_id)

/-- `DetectorIdToRoadSections.__eq__` (`flow_processed_output.py`, lines
101-114): differing lengths give `False`; otherwise index-aligned comparison
of `detector_id` and `section_id`. -/
def DetectorIdToRoadSections.eq (self other : DetectorIdToRoadSections) : Bool :=
  if self.aimsun_detector_locations.length ≠ other.aimsun_detector_locations.length then
    false
  else
    (self.aimsun_detector_locations.zip other.aimsun_detector_locations).all fun p =>
      DetectorIdToRoadSection.fieldEq p.1 p.2

/-- The per-element comparison inside `OutputFlowDataSet.__eq__`
(`flow_processed_output.py`, lines 215-217): `detector_id`, `flow_data`
(Python dictionary equality) and `section_id`. -/
def OutputFlowData.fieldEq (a b : OutputFlowData) : Bool :=
  decide (a.detector_id = b.detector_id) &&
  pyDictEq a.flow_data b.flow_data &&
  decide (a.section_id = b.section_id)

/-- `OutputFlowDataSet.__eq__` (`flow_processed_output.py`, lines 206-219):
differing lengths give `False`; otherwise index-aligned comparison of the
`OutputFlowData` elements.  The `year` attribute is never read. -/
def OutputFlowDataSet.eq (self other : OutputFlowDataSet) : Bool :=
  if self.flow_data_set.length ≠ other.flow_data_set.length then
    false
  else
    (self.flow_data_set.zip other.flow_data_set).all fun p =>
      OutputFlowData.fieldEq p.1 p.2

/-- A value in a pickle stream, covering every runtime type the code and its
tests write into or read out of a file.  Python lists written by this code
are homogeneous, so a pickled list is modelled by one constructor per element
type. -/
inductive PValue where
  | pInt (n : Int)
  | pStr (s : String)
  | pDict (d : List (Int × Direction × Point))
  | pStrList (elems : List String)
  | pDFDList (elems : List DetectorFlowData)
  | pDSList (elems : List DetectorIdToRoadSection)
  | pOFDList (elems : List OutputFlowData)
deriving DecidableEq

/-- `isinstance(v, list)`. -/
def PValue.isList : PValue → Bool
  | .pStrList _ | .pDFDList _ | .pDSList _ | .pOFDList _ => true
  | _ => false

/-- Whether `v` is the empty Python list `[]`. -/
def PValue.isEmptyList : PValue → Bool
  | .pStrList [] | .pDFDList [] | .pDSList [] | .pOFDList [] => true
  | _ => false

/-- `isinstance(v, dict)`. -/
def PValue.isDict : PValue → Bool
  | .pDict _ => true
  | _ => false

/-- `isinstance(v, int)`. -/
def PValue.isInt : PValue → Bool
  | .pInt _ => true
  | _ => false

/-- `isinstance(v[0], DetectorFlowData)` for a nonempty list `v` (false on
anything else). -/
def PValue.firstIsDetectorFlowData : PValue → Bool
  | .pDFDList (_ :: _) => true
  | _ => false

/-- `isinstance(v[0], DetectorIdToRoadSection)` for a nonempty list `v`
(false on anything else). -/
def PValue.firstIsDetectorIdToRoadSection : PValue → Bool
  | .pDSList (_ :: _) => true
  | _ => false

/-- `isinstance(v[0], OutputFlowData)` for a nonempty list `v` (false on
anything else). -/
def PValue.firstIsOutputFlowData : PValue → Bool
  | .pOFDList (_ :: _) => true
  | _ => false

/-- The content of the file at a given path: no file, a file that is not a
valid pickle stream (e.g. plain text), or a valid pickle stream holding the
sequence of values that were dumped to it. -/
inductive FileData where
  | absent
  | text (s : String)
  | stream (vals : List PValue)
deriving DecidableEq

/-- The exceptions the code can raise.  The code itself raises only the two
`Exception(...)` calls (`emptyDataset` with the per-class message, and
`typeMismatch` with message "File has incorrect data type. Import aborted.");
the remaining constructors are the built-in exceptions its statements can
raise: `open` on a missing path, `pickle.load` on a non-pickle file or an
exhausted stream, and `list[0]` on an empty list. -/
inductive PyError where
  | emptyDataset (msg : String)
  | typeMismatch
  | unpicklingError
  | eofError
  | indexError
  | fileNotFoundError
deriving DecidableEq

/-- `os.path.exists(filepath)`. -/
def pathExists : FileData → Bool
  | .absent => false
  | _ => true

/-- `open(filepath, 'rb')` followed by the `i`-th sequential `pickle.load`
(0-based): `FileNotFoundError` when no file exists at the path,
`UnpicklingError` when the file is not a valid pickle stream, `EOFError`
when the stream holds fewer than `i + 1` values. -/
def pickleLoadNth (f : FileData) (i : Nat) : Except PyError PValue :=
  match f with
  | .absent => .error .fileNotFoundError
  | .text _ => .error .unpicklingError
  | .stream vals =>
      match vals.get? i with
      | some v => .ok v
      | none => .error .eofError

/-- The observable outcome of an `export_to_file` call: the file at the
target path after the call, the warnings emitted, and the exception raised,
if any. -/
structure ExportOutcome where
  fileAfter : FileData
  warnings : List String
  error : Option PyError
deriving DecidableEq

/-- The warning message `warnings.warn` is called with in every
`export_to_file`. -/
def overwriteWarning : String := "File already exists at filepath. Overwriting file."

/-- `DetectorsLocation.export_to_file` (`flow_processing_input.py`, lines
58-74): raise when `detectors_location_dict` is empty (before any filesystem
access); warn when a file exists at the path; write the dictionary then the
year as two sequential pickled values, fully replacing the file. -/
def DetectorsLocation.export_to_file (self : DetectorsLocation) (fileAt : FileData) :
    ExportOutcome :=
  if self.detectors_location_dict.length = 0 then
    { fileAfter := fileAt, warnings := [],
      error := some (.emptyDataset "DetectorsLocation has no data. Export aborted.") }
  else
    { fileAfter := .stream [.pDict self.detectors_location_dict, .pInt self.year],
      warnings := if pathExists fileAt then [overwriteWarning] else [],
      error := none }

/-- `GroundFlowData.export_to_file` (`flow_processing_input.py`, lines
158-172): raise when `detector_flow_data` is empty; warn when a file exists;
write the list as one pickled value, fully replacing the file. -/
def GroundFlowData.export_to_file (self : GroundFlowData) (fileAt : FileData) :
    ExportOutcome :=
  if self.detector_flow_data.length = 0 then
    { fileAfter := fileAt, warnings := [],
      error := some (.emptyDataset "GroundFlowData has no data. Export aborted.") }
  else
    { fileAfter := .stream [.pDFDList self.detector_flow_data],
      warnings := if pathExists fileAt then [overwriteWarning] else [],
      error := none }

/-- `DetectorIdToRoadSections.export_to_file` (`flow_processed_output.py`,
lines 59-78): raise when `aimsun_detector_locations` is empty (the source
concatenates the message without a space); warn when a file exists; write
the list as one pickled value. -/
def DetectorIdToRoadSections.export_to_file (self : DetectorIdToRoadSections)
    (fileAt : FileData) : ExportOutcome :=
  if self.aimsun_detector_locations.length = 0 then
    { fileAfter := fileAt, warnings := [],
      error := some (.emptyDataset "DetectorIdToRoadSections has no data.Export aborted.") }
  else
    { fileAfter := .stream [.pDSList self.aimsun_detector_locations],
      warnings := if pathExists fileAt then [overwriteWarning] else [],
      error := none }

/-- `OutputFlowDataSet.export_to_file` (`flow_processed_output.py`, lines
155-173): raise when `flow_data_set` is empty; warn when a file exists; write
the list as one pickled value.  The `year` attribute is not written. -/
def OutputFlowDataSet.export_to_file (self : OutputFlowDataSet) (fileAt : FileData) :
    ExportOutcome :=
  if self.flow_data_set.length = 0 then
    { fileAfter := fileAt, warnings := [],
      error := some (.emptyDataset "OutputFlowDataSet has no data. Export aborted.") }
  else
    { fileAfter := .stream [.pOFDList self.flow_data_set],
      warnings := if pathExists fileAt then [overwriteWarning] else [],
      error := none }

/-- `DetectorsLocation._import_from_file` (`flow_processing_input.py`, lines
76-93): two sequential `pickle.load`s, then
`isinstance(imported_location_dict, dict) and isinstance(imported_year, int)`;
on success assign both fields, otherwise raise the type-mismatch exception.
The result pairs the instance after the call with the raised exception, if
any; an exception leaves the fields as they were. -/
def DetectorsLocation.importFromFile (self : DetectorsLocation) (f : FileData) :
    DetectorsLocation × Option PyError :=
  match pickleLoadNth f 0 with
  | .error e => (self, some e)
  | .ok v1 =>
      match pickleLoadNth f 1 with
      | .error e => (self, some e)
      | .ok v2 =>
          match v1, v2 with
          | .pDict d, .pInt y => ({ detectors_location_dict := d, year := y }, none)
          | _, _ => (self, some .typeMismatch)

/-- `GroundFlowData._import_from_file` (`flow_processing_input.py`, lines
174-188): one `pickle.load`, then
`isinstance(imported_data, list) and isinstance(imported_data[0], DetectorFlowData)`.
Python's `and` short-circuits, so `imported_data[0]` is evaluated exactly
when the value is a list, and raises `IndexError` when that list is empty;
a non-list value or a wrong first element raises the type-mismatch
exception; on success the list is assigned to `detector_flow_data`. -/
def GroundFlowData.importFromFile (self : GroundFlowData) (f : FileData) :
    GroundFlowData × Option PyError :=
  match pickleLoadNth f 0 with
  | .error e => (self, some e)
  | .ok v =>
      match v with
      | .pDFDList [] => (self, some .indexError)
      | .pStrList [] => (self, some .indexError)
      | .pDSList [] => (self, some .indexError)
      | .pOFDList [] => (self, some .indexError)
      | .pDFDList (d :: ds) => ({ detector_flow_data := d :: ds }, none)
      | _ => (self, some .typeMismatch)

/-- `DetectorIdToRoadSections._import_from_file` (`flow_processed_output.py`,
lines 80-99): same shape as `GroundFlowData._import_from_file` with expected
element type `DetectorIdToRoadSection`. -/
def DetectorIdToRoadSections.importFromFile (self : DetectorIdToRoadSections)
    (f : FileData) : DetectorIdToRoadSections × Option PyError :=
  match pickleLoadNth f 0 with
  | .error e => (self, some e)
  | .ok v =>
      match v with
      | .pDFDList [] => (self, some .indexError)
      | .pStrList [] => (self, some .indexError)
      | .pDSList [] => (self, some .indexError)
      | .pOFDList [] => (self, some .indexError)
      | .pDSList (d :: ds) => ({ aimsun_detector_locations := d :: ds }, none)
      | _ => (self, some .typeMismatch)

/-- `OutputFlowDataSet._import_from_file` (`flow_processed_output.py`, lines
175-193): same shape with expected element type `OutputFlowData`.  Only
`flow_data_set` is assigned; `year` is left as it was. -/
def OutputFlowDataSet.importFromFile (self : OutputFlowDataSet) (f : FileData) :
    OutputFlowDataSet × Option PyError :=
  match pickleLoadNth f 0 with
  | .error e => (self, some e)
  | .ok v =>
      match v with
      | .pDFDList [] => (self, some .indexError)
      | .pStrList [] => (self, some .indexError)
      | .pDSList [] => (self, some .indexError)
      | .pOFDList [] => (self, some .indexError)
      | .pOFDList (d :: ds) => ({ self with flow_data_set := d :: ds }, none)
      | _ => (self, some .typeMismatch)

/-- `DetectorsLocation.__init__` (`flow_processing_input.py`, lines 53-56):
`self.year = year`, then, when a filepath is given, `_import_from_file`.
The not-yet-assigned `detectors_location_dict` of a fresh instance is
modelled as the empty list.  A raised exception aborts the construction. -/
def DetectorsLocation.construct (year : Int) (file : Option FileData) :
    Except PyError DetectorsLocation :=
  let s0 : DetectorsLocation := { detectors_location_dict := [], year := year }
  match file with
  | none => .ok s0
  | some f =>
      match s0.importFromFile f with
      | (s1, none) => .ok s1
      | (_, some e) => .error e

/-- `GroundFlowData.__init__` (`flow_processing_input.py`, lines 154-156):
imports when a filepath is given.  The not-yet-assigned `detector_flow_data`
of a fresh instance is modelled as the empty list. -/
def GroundFlowData.construct (file : Option FileData) :
    Except PyError GroundFlowData :=
  let s0 : GroundFlowData := { detector_flow_data := [] }
  match file with
  | none => .ok s0
  | some f =>
      match s0.importFromFile f with
      | (s1, none) => .ok s1
      | (_, some e) => .error e

/-- `DetectorIdToRoadSections.__init__` (`flow_processed_output.py`, lines
55-57). -/
def DetectorIdToRoadSections.construct (file : Option FileData) :
    Except PyError DetectorIdToRoadSections :=
  let s0 : DetectorIdToRoadSections := { aimsun_detector_locations := [] }
  match file with
  | none => .ok s0
  | some f =>
      match s0.importFromFile f with
      | (s1, none) => .ok s1
      | (_, some e) => .error e

/-- `OutputFlowDataSet.__init__` (`flow_processed_output.py`, lines 151-153).
The not-yet-assigned `flow_data_set` and `year` of a fresh instance are
modelled as the empty list and `0`; `_import_from_file` never assigns
`year`. -/
def OutputFlowDataSet.construct (file : Option FileData) :
    Except PyError OutputFlowDataSet :=
  let s0 : OutputFlowDataSet := { flow_data_set := [], year := 0 }
  match file with
  | none => .ok s0
  | some f =>
      match s0.importFromFile f with
      | (s1, none) => .ok s1
      | (_, some e) => .error e

/-! ## Helper lemmas -/

theorem dictLookup_self {β : Type} :
    ∀ (d : List (Int × β)), (d.map Prod.fst).Nodup →
      ∀ kv ∈ d, dictLookup kv.1 d = some kv.2 := by
  intro d
  induction d with
  | nil =>
      intro _ kv hkv
      exact absurd hkv (List.not_mem_nil kv)
  | cons a rest ih =>
      intro h kv hkv
      rw [List.map_cons, List.nodup_cons] at h
      rcases List.mem_cons.mp hkv with heq | hmem
      · subst heq
        simp [dictLookup]
      · have hne : kv.1 ≠ a.1 := by
          intro hc
          exact h.1 (hc ▸ List.mem_map_of_mem Prod.fst hmem)

        simp [dictLookup, hne, ih h.2 kv hmem]

theorem pyDictEq_refl {d : List (Int × Rat)} (h : (d.map Prod.fst).Nodup) :
    pyDictEq d d = true := by
  unfold pyDictEq
  simp only [Bool.and_eq_true, decide_eq_true_eq, List.all_eq_true]
  refine ⟨trivial, ?_⟩
  intro kv hkv
  exact dictLookup_self d h kv hkv

theorem zip_all_self {α : Type} (f : α × α → Bool) :
    ∀ (l : List α), (∀ a ∈ l, f (a, a) = true) → (l.zip l).all f = true := by
  intro l
  induction l with
  | nil => intro _; rfl
  | cons a rest ih =>
      intro h
      simp only [List.zip_cons_cons, List.all_cons, Bool.and_eq_true]
      exact ⟨h a (List.mem_cons_self a rest), ih fun b hb => h b (List.mem_cons_of_mem a hb)⟩

theorem fieldEq_refl_dfd {a : DetectorFlowData}
    (h : (a.flow_data.map Prod.fst).Nodup) : a.fieldEq a = true := by
  simp [DetectorFlowData.fieldEq, pyDictEq_refl h]

theorem fieldEq_refl_ofd {a : OutputFlowData}
    (h : (a.flow_data.map Prod.fst).Nodup) : a.fieldEq a = true := by
  simp [OutputFlowData.fieldEq, pyDictEq_refl h]

theorem eq_refl_dl {x : DetectorsLocation}
    (h : (x.detectors_location_dict.map Prod.fst).Nodup) : x.eq x = true := by
  unfold DetectorsLocation.eq
  simp only [ne_eq, not_true_eq_false, if_false, List.all_eq_true]
  intro kv hkv
  rw [dictLookup_self _ h kv hkv]
  simp

theorem eq_refl_gfd {x : GroundFlowData}
    (h : ∀ d ∈ x.detector_flow_data, (d.flow_data.map Prod.fst).Nodup) :
    x.eq x = true := by
  unfold GroundFlowData.eq
  simp only [ne_eq, not_true_eq_false, if_false]
  exact zip_all_self _ _ fun a ha => fieldEq_refl_dfd (h a ha)

theorem eq_refl_ditrs (x : DetectorIdToRoadSections) :
    x.eq x = true := by
  unfold DetectorIdToRoadSections.eq
  simp only [ne_eq, not_true_eq_false, if_false]
  exact zip_all_self _ _ fun a _ => by simp [DetectorIdToRoadSection.fieldEq]

theorem eq_same_list_ofds {a b : OutputFlowDataSet}
    (hab : a.flow_data_set = b.flow_data_set)
    (h : ∀ d ∈ b.flow_data_set, (d.flow_data.map Prod.fst).Nodup) :
    a.eq b = true := by
  unfold OutputFlowDataSet.eq
  rw [hab]
  simp only [ne_eq, not_true_eq_false, if_false]
  exact zip_all_self _ _ fun p hp => fieldEq_refl_ofd (h p hp)

theorem export_fileAfter_dl (x : DetectorsLocation) (f0 : FileData)
    (h : x.detectors_location_dict ≠ []) :
    (x.export_to_file f0).fileAfter
      = .stream [.pDict x.detectors_location_dict, .pInt x.year] := by
  have h0 : ¬ x.detectors_location_dict.length = 0 := by
    simpa [List.length_eq_zero] using h
  simp [DetectorsLocation.export_to_file, h0]

theorem export_fileAfter_gfd (x : GroundFlowData) (f0 : FileData)
    (h : x.detector_flow_data ≠ []) :
    (x.export_to_file f0).fileAfter = .stream [.pDFDList x.detector_flow_data] := by
  have h0 : ¬ x.detector_flow_data.length = 0 := by
    simpa [List.length_eq_zero] using h
  simp [GroundFlowData.export_to_file, h0]

theorem export_fileAfter_ditrs (x : DetectorIdToRoadSections)
    (f0 : FileData) (h : x.aimsun_detector_locations ≠ []) :
    (x.export_to_file f0).fileAfter = .stream [.pDSList x.aimsun_detector_locations] := by
  have h0 : ¬ x.aimsun_detector_locations.length = 0 := by
    simpa [List.length_eq_zero] using h
  simp [DetectorIdToRoadSections.export_to_file, h0]

theorem export_fileAfter_ofds (x : OutputFlowDataSet) (f0 : FileData)
    (h : x.flow_data_set ≠ []) :
    (x.export_to_file f0).fileAfter = .stream [.pOFDList x.flow_data_set] := by
  have h0 : ¬ x.flow_data_set.length = 0 := by
    simpa [List.length_eq_zero] using h
  simp [OutputFlowDataSet.export_to_file, h0]

theorem construct_stream_dl (d : List (Int × Direction × Point))
    (y0 y : Int) (rest : List PValue) :
    DetectorsLocation.construct y0 (some (.stream (.pDict d :: .pInt y :: rest)))
      = .ok ⟨d, y⟩ := rfl

theorem construct_stream_gfd (d : DetectorFlowData)
    (ds : List DetectorFlowData) (rest : List PValue) :
    GroundFlowData.construct (some (.stream (.pDFDList (d :: ds) :: rest)))
      = .ok ⟨d :: ds⟩ := rfl

theorem construct_stream_ditrs (d : DetectorIdToRoadSection)
    (ds : List DetectorIdToRoadSection) (rest : List PValue) :
    DetectorIdToRoadSections.construct (some (.stream (.pDSList (d :: ds) :: rest)))
      = .ok ⟨d :: ds⟩ := rfl

theorem construct_stream_ofds (d : OutputFlowData)
    (ds : List OutputFlowData) (rest : List PValue) :
    OutputFlowDataSet.construct (some (.stream (.pOFDList (d :: ds) :: rest)))
      = .ok ⟨d :: ds, 0⟩ := rfl

/-! ## Claim C1 -/

/-- Claim C1: for every populated collection instance of each of the four
collection types and any target path, exporting the instance to the path and
then constructing a new instance by importing from that path succeeds and
yields an object equal to the original under the type's equality relation
(under the Python dict invariant that dictionary keys are unique). -/
theorem roundtrip_export_import :
    (∀ (x : DetectorsLocation) (f0 : FileData) (y0 : Int),
       x.detectors_location_dict ≠ [] →
       (x.detectors_location_dict.map Prod.fst).Nodup →
       ∃ x', DetectorsLocation.construct y0 (some (x.export_to_file f0).fileAfter) = .ok x'
          ∧ x'.eq x = true) ∧
    (∀ (x : GroundFlowData) (f0 : FileData),
       x.detector_flow_data ≠ [] →
       (∀ d ∈ x.detector_flow_data, (d.flow_data.map Prod.fst).Nodup) →
       ∃ x', GroundFlowData.construct (some (x.export_to_file f0).fileAfter) = .ok x'
          ∧ x'.eq x = true) ∧
    (∀ (x : DetectorIdToRoadSections) (f0 : FileData),
       x.aimsun_detector_locations ≠ [] →
       ∃ x', DetectorIdToRoadSections.construct (some (x.export_to_file f0).fileAfter) = .ok x'
          ∧ x'.eq x = true) ∧
    (∀ (x : OutputFlowDataSet) (f0 : FileData),
       x.flow_data_set ≠ [] →
       (∀ d ∈ x.flow_data_set, (d.flow_data.map Prod.fst).Nodup) →
       ∃ x', OutputFlowDataSet.construct (some (x.export_to_file f0).fileAfter) = .ok x'
          ∧ x'.eq x = true) := by
  refine ⟨?_, ?_, ?_, ?_⟩
  · intro x f0 y0 hne hnd
    refine ⟨⟨x.detectors_location_dict, x.year⟩, ?_, ?_⟩
    · rw [export_fileAfter_dl x f0 hne]
      exact construct_stream_dl x.detectors_location_dict y0 x.year []
    · exact eq_refl_dl hnd
  · intro x f0 hne hnd
    obtain ⟨d, ds, hl⟩ : ∃ d ds, x.detector_flow_data = d :: ds := by
      cases hx : x.detector_flow_data with
      | nil => exact absurd hx hne
      | cons d ds => exact ⟨d, ds, rfl⟩
    refine ⟨⟨x.detector_flow_data⟩, ?_, ?_⟩
    · rw [export_fileAfter_gfd x f0 hne, hl]
      exact construct_stream_gfd d ds []
    · exact eq_refl_gfd hnd
  · intro x f0 hne
    obtain ⟨d, ds, hl⟩ : ∃ d ds, x.aimsun_detector_locations = d :: ds := by
      cases hx : x.aimsun_detector_locations with
      | nil => exact absurd hx hne
      | cons d ds => exact ⟨d, ds, rfl⟩
    refine ⟨⟨x.aimsun_detector_locations⟩, ?_, ?_⟩
    · rw [export_fileAfter_ditrs x f0 hne, hl]
      exact construct_stream_ditrs d ds []
    · exact eq_refl_ditrs ⟨x.aimsun_detector_locations⟩
  · intro x f0 hne hnd
    obtain ⟨d, ds, hl⟩ : ∃ d ds, x.flow_data_set = d :: ds := by
      cases hx : x.flow_data_set with
      | nil => exact absurd hx hne
      | cons d ds => exact ⟨d, ds, rfl⟩
    refine ⟨⟨x.flow_data_set, 0⟩, ?_, ?_⟩
    · rw [export_fileAfter_ofds x f0 hne, hl]
      exact construct_stream_ofds d ds []
    · exact eq_same_list_ofds rfl hnd

/-- Concrete instantiation of the round-trip theorem: each of the four claim
conjuncts applied to a one-element instance exported over an absent file. -/
theorem roundtrip_export_import_witness :
    (∃ x', DetectorsLocation.construct 0
        (some ((DetectorsLocation.mk [(1, .north_bound, ⟨1, 2⟩)] 2021).export_to_file
          .absent).fileAfter) = .ok x'
      ∧ x'.eq (DetectorsLocation.mk [(1, .north_bound, ⟨1, 2⟩)] 2021) = true) ∧
    (∃ x', GroundFlowData.construct
        (some ((GroundFlowData.mk [⟨7, .east_bound, [(5, 3)], "d7", 2021⟩]).export_to_file
          .absent).fileAfter) = .ok x'
      ∧ x'.eq (GroundFlowData.mk [⟨7, .east_bound, [(5, 3)], "d7", 2021⟩]) = true) ∧
    (∃ x', DetectorIdToRoadSections.construct
        (some ((DetectorIdToRoadSections.mk [⟨3, 4⟩]).export_to_file .absent).fileAfter)
          = .ok x'
      ∧ x'.eq (DetectorIdToRoadSections.mk [⟨3, 4⟩]) = true) ∧
    (∃ x', OutputFlowDataSet.construct
        (some ((OutputFlowDataSet.mk [⟨7, [(5, 3)], 4⟩] 2021).export_to_file
          .absent).fileAfter) = .ok x'
      ∧ x'.eq (OutputFlowDataSet.mk [⟨7, [(5, 3)], 4⟩] 2021) = true) :=
  ⟨roundtrip_export_import.1 _ .absent 0 (by decide) (by decide),
   roundtrip_export_import.2.1 _ .absent (by decide) (by decide),
   roundtrip_export_import.2.2.1 _ .absent (by decide),
   roundtrip_export_import.2.2.2 _ .absent (by decide) (by decide)⟩

/-! ## Claim C2 -/

/-- Claim C2 counterexample: two `DetectorsLocation` instances whose
dictionaries have different sizes (1 entry vs 2 entries) yet compare equal,
because `DetectorsLocation.__eq__` performs no size comparison — it only
checks the year and that every key of the left operand occurs in the right
operand with equal values. -/
theorem eq_length_mismatch_counterexample :
    (DetectorsLocation.mk [(1, .north_bound, ⟨0, 0⟩)] 2021).detectors_location_dict.length
      ≠ (DetectorsLocation.mk [(1, .north_bound, ⟨0, 0⟩), (2, .south_bound, ⟨3, 4⟩)]
          2021).detectors_location_dict.length
  ∧ (DetectorsLocation.mk [(1, .north_bound, ⟨0, 0⟩)] 2021).eq
      (DetectorsLocation.mk [(1, .north_bound, ⟨0, 0⟩), (2, .south_bound, ⟨3, 4⟩)] 2021)
      = true := by
  decide

/-- Claim C2 amended: for the three list-based collection types a length
mismatch of the primary list makes the equality comparison return unequal;
`DetectorsLocation` equality performs no size comparison at all (the
counterexample shows an equal pair of different sizes). -/
theorem eq_requires_equal_length_for_lists :
    (∀ a b : GroundFlowData,
       a.detector_flow_data.length ≠ b.detector_flow_data.length → a.eq b = false) ∧
    (∀ a b : DetectorIdToRoadSections,
       a.aimsun_detector_locations.length ≠ b.aimsun_detector_locations.length →
         a.eq b = false) ∧
    (∀ a b : OutputFlowDataSet,
       a.flow_data_set.length ≠ b.flow_data_set.length → a.eq b = false) := by
  refine ⟨?_, ?_, ?_⟩
  · intro a b h
    simp [GroundFlowData.eq, h]
  · intro a b h
    simp [DetectorIdToRoadSections.eq, h]
  · intro a b h
    simp [OutputFlowDataSet.eq, h]

/-- Concrete instantiation of the amended length requirement for the three
list-based collection types, at an empty and a one-element instance. -/
theorem eq_requires_equal_length_for_lists_witness :
    GroundFlowData.eq ⟨[]⟩ ⟨[⟨1, .north_bound, [], "a", 0⟩]⟩ = false ∧
    DetectorIdToRoadSections.eq ⟨[]⟩ ⟨[⟨1, 2⟩]⟩ = false ∧
    OutputFlowDataSet.eq ⟨[], 0⟩ ⟨[⟨1, [], 2⟩], 0⟩ = false :=
  ⟨eq_requires_equal_length_for_lists.1 _ _ (by decide),
   eq_requires_equal_length_for_lists.2.1 _ _ (by decide),
   eq_requires_equal_length_for_lists.2.2 _ _ (by decide)⟩

/-! ## Claim C3 -/

/-- Claim C3: exporting an instance whose primary field is empty raises the
"no data" exception with the per-class message, emits no warning, and leaves
the file at the target path exactly as it was — the emptiness check runs
before any filesystem access, so no file is created or modified. -/
theorem export_empty_dataset_aborts :
    (∀ (x : DetectorsLocation) (f0 : FileData), x.detectors_location_dict = [] →
       x.export_to_file f0 = ⟨f0, [],
         some (.emptyDataset "DetectorsLocation has no data. Export aborted.")⟩) ∧
    (∀ (x : GroundFlowData) (f0 : FileData), x.detector_flow_data = [] →
       x.export_to_file f0 = ⟨f0, [],
         some (.emptyDataset "GroundFlowData has no data. Export aborted.")⟩) ∧
    (∀ (x : DetectorIdToRoadSections) (f0 : FileData), x.aimsun_detector_locations = [] →
       x.export_to_file f0 = ⟨f0, [],
         some (.emptyDataset "DetectorIdToRoadSections has no data.Export aborted.")⟩) ∧
    (∀ (x : OutputFlowDataSet) (f0 : FileData), x.flow_data_set = [] →
       x.export_to_file f0 = ⟨f0, [],
         some (.emptyDataset "OutputFlowDataSet has no data. Export aborted.")⟩) := by
  refine ⟨?_, ?_, ?_, ?_⟩
  · intro x f0 h
    simp [DetectorsLocation.export_to_file, h]
  · intro x f0 h
    simp [GroundFlowData.export_to_file, h]
  · intro x f0 h
    simp [DetectorIdToRoadSections.export_to_file, h]
  · intro x f0 h
    simp [OutputFlowDataSet.export_to_file, h]

/-- Concrete instantiation of the empty-export theorem: each collection type
with an empty primary field exported over a pre-existing file, which is left
untouched. -/
theorem export_empty_dataset_aborts_witness :
    (DetectorsLocation.mk [] 2021).export_to_file (.text "old") = ⟨.text "old", [],
        some (.emptyDataset "DetectorsLocation has no data. Export aborted.")⟩ ∧
    (GroundFlowData.mk []).export_to_file (.text "old") = ⟨.text "old", [],
        some (.emptyDataset "GroundFlowData has no data. Export aborted.")⟩ ∧
    (DetectorIdToRoadSections.mk []).export_to_file (.text "old") = ⟨.text "old", [],
        some (.emptyDataset "DetectorIdToRoadSections has no data.Export aborted.")⟩ ∧
    (OutputFlowDataSet.mk [] 0).export_to_file (.text "old") = ⟨.text "old", [],
        some (.emptyDataset "OutputFlowDataSet has no data. Export aborted.")⟩ :=
  ⟨export_empty_dataset_aborts.1 _ _ rfl,
   export_empty_dataset_aborts.2.1 _ _ rfl,
   export_empty_dataset_aborts.2.2.1 _ _ rfl,
   export_empty_dataset_aborts.2.2.2 _ _ rfl⟩

/-! ## Claim C4 -/

/-- Claim C4 counterexample: a file holding one pickled value — a list whose
single element is a string, exactly what the repository's own test
`test_DL_import_wrong_file_serialized` writes — has the wrong container type
for `DetectorsLocation` (a list where a mapping is expected), yet importing
it via the constructor raises `EOFError` from the second `pickle.load`, not
the "file has incorrect data type" type-mismatch exception. -/
theorem import_type_mismatch_counterexample :
    DetectorsLocation.construct 9999
        (some (.stream [.pStrList ["This is a wrong dataset"]]))
      = .error .eofError
  ∧ PyError.eofError ≠ PyError.typeMismatch := by
  exact ⟨rfl, by decide⟩

/-- Claim C4 amended: for the three list-based collection types, importing a
file whose first pickled value has the wrong shape — not a list, or a
nonempty list whose first element is not the expected record type — raises
the type-mismatch exception.  For `DetectorsLocation` the type-mismatch
exception is raised when the file holds at least two deserializable values
whose shapes mismatch (first not a mapping, or second not an int); a file
holding a single value of the wrong container type instead raises `EOFError`
from the second `pickle.load`. -/
theorem import_type_mismatch :
    (∀ (self : GroundFlowData) (v : PValue) (rest : List PValue),
       v.isList = false ∨ (v.isEmptyList = false ∧ v.firstIsDetectorFlowData = false) →
       self.importFromFile (.stream (v :: rest)) = (self, some .typeMismatch)) ∧
    (∀ (self : DetectorIdToRoadSections) (v : PValue) (rest : List PValue),
       v.isList = false ∨ (v.isEmptyList = false ∧ v.firstIsDetectorIdToRoadSection = false) →
       self.importFromFile (.stream (v :: rest)) = (self, some .typeMismatch)) ∧
    (∀ (self : OutputFlowDataSet) (v : PValue) (rest : List PValue),
       v.isList = false ∨ (v.isEmptyList = false ∧ v.firstIsOutputFlowData = false) →
       self.importFromFile (.stream (v :: rest)) = (self, some .typeMismatch)) ∧
    (∀ (self : DetectorsLocation) (v1 v2 : PValue) (rest : List PValue),
       v1.isDict = false ∨ v2.isInt = false →
       self.importFromFile (.stream (v1 :: v2 :: rest)) = (self, some .typeMismatch)) ∧
    (∀ (self : DetectorsLocation) (v : PValue),
       self.importFromFile (.stream [v]) = (self, some .eofError)) := by
  refine ⟨?_, ?_, ?_, ?_, ?_⟩
  · intro self v rest h
    cases v with
    | pInt n => rfl
    | pStr s => rfl
    | pDict d => rfl
    | pStrList elems =>
        cases elems with
        | nil => simp [PValue.isList, PValue.isEmptyList] at h
        | cons e es => rfl
    | pDFDList elems =>
        cases elems with
        | nil => simp [PValue.isList, PValue.isEmptyList] at h
        | cons e es => simp [PValue.isList, PValue.firstIsDetectorFlowData] at h
    | pDSList elems =>
        cases elems with
        | nil => simp [PValue.isList, PValue.isEmptyList] at h
        | cons e es => rfl
    | pOFDList elems =>
        cases elems with
        | nil => simp [PValue.isList, PValue.isEmptyList] at h
        | cons e es => rfl
  · intro self v rest h
    cases v with
    | pInt n => rfl
    | pStr s => rfl
    | pDict d => rfl
    | pStrList elems =>
        cases elems with
        | nil => simp [PValue.isList, PValue.isEmptyList] at h
        | cons e es => rfl
    | pDFDList elems =>
        cases elems with
        | nil => simp [PValue.isList, PValue.isEmptyList] at h
        | cons e es => rfl
    | pDSList elems =>
        cases elems with
        | nil => simp [PValue.isList, PValue.isEmptyList] at h
        | cons e es => simp [PValue.isList, PValue.firstIsDetectorIdToRoadSection] at h
    | pOFDList elems =>
        cases elems with
        | nil => simp [PValue.isList, PValue.isEmptyList] at h
        | cons e es => rfl
  · intro self v rest h
    cases v with
    | pInt n => rfl
    | pStr s => rfl
    | pDict d => rfl
    | pStrList elems =>
        cases elems with
        | nil => simp [PValue.isList, PValue.isEmptyList] at h
        | cons e es => rfl
    | pDFDList elems =>
        cases elems with
        | nil => simp [PValue.isList, PValue.isEmptyList] at h
        | cons e es => rfl
    | pDSList elems =>
        cases elems with
        | nil => simp [PValue.isList, PValue.isEmptyList] at h
        | cons e es => rfl
    | pOFDList elems =>
        cases elems with
        | nil => simp [PValue.isList, PValue.isEmptyList] at h
        | cons e es => simp [PValue.isList, PValue.firstIsOutputFlowData] at h
  · intro self v1 v2 rest h
    cases v1 <;> cases v2 <;>
      first
        | rfl
        | simp [PValue.isDict, PValue.isInt] at h
  · intro self v
    rfl

/-- Concrete instantiation of the amended type-mismatch theorem: each
conjunct applied to the wrong-shape files of the repository's tests (a list
holding one string, and for `DetectorsLocation` a dict-plus-string pair and a
single-value file). -/
theorem import_type_mismatch_witness :
    (GroundFlowData.mk []).importFromFile
        (.stream [.pStrList ["This is a wrong dataset"]])
      = (GroundFlowData.mk [], some .typeMismatch) ∧
    (DetectorIdToRoadSections.mk []).importFromFile
        (.stream [.pStrList ["This is a wrong dataset"]])
      = (DetectorIdToRoadSections.mk [], some .typeMismatch) ∧
    (OutputFlowDataSet.mk [] 0).importFromFile
        (.stream [.pStrList ["This is a wrong dataset"]])
      = (OutputFlowDataSet.mk [] 0, some .typeMismatch) ∧
    (DetectorsLocation.mk [] 1).importFromFile
        (.stream [.pDict [], .pStr "not a year"])
      = (DetectorsLocation.mk [] 1, some .typeMismatch) ∧
    (DetectorsLocation.mk [] 1).importFromFile
        (.stream [.pStrList ["This is a wrong dataset"]])
      = (DetectorsLocation.mk [] 1, some .eofError) :=
  ⟨import_type_mismatch.1 _ _ _ (Or.inr (by decide)),
   import_type_mismatch.2.1 _ _ _ (Or.inr (by decide)),
   import_type_mismatch.2.2.1 _ _ _ (Or.inr (by decide)),
   import_type_mismatch.2.2.2.1 _ _ _ _ (Or.inr (by decide)),
   import_type_mismatch.2.2.2.2 _ _⟩

/-! ## Claim C5 -/

/-- Claim C5: `_import_from_file` is atomic with respect to the object's
state.  For every instance and file, either the deserialized values pass the
type check and every imported field is replaced by them in one step, or an
exception is raised and the instance's prior fields are left untouched —
there is no partially assigned state. -/
theorem import_atomic :
    (∀ (self : DetectorsLocation) (f : FileData),
       (∃ d y, pickleLoadNth f 0 = .ok (.pDict d) ∧ pickleLoadNth f 1 = .ok (.pInt y)
          ∧ self.importFromFile f = (⟨d, y⟩, none))
       ∨ ((self.importFromFile f).1 = self ∧ (self.importFromFile f).2 ≠ none)) ∧
    (∀ (self : GroundFlowData) (f : FileData),
       (∃ d ds, pickleLoadNth f 0 = .ok (.pDFDList (d :: ds))
          ∧ self.importFromFile f = (⟨d :: ds⟩, none))
       ∨ ((self.importFromFile f).1 = self ∧ (self.importFromFile f).2 ≠ none)) ∧
    (∀ (self : DetectorIdToRoadSections) (f : FileData),
       (∃ d ds, pickleLoadNth f 0 = .ok (.pDSList (d :: ds))
          ∧ self.importFromFile f = (⟨d :: ds⟩, none))
       ∨ ((self.importFromFile f).1 = self ∧ (self.importFromFile f).2 ≠ none)) ∧
    (∀ (self : OutputFlowDataSet) (f : FileData),
       (∃ d ds, pickleLoadNth f 0 = .ok (.pOFDList (d :: ds))
          ∧ self.importFromFile f = ({ self with flow_data_set := d :: ds }, none))
       ∨ ((self.importFromFile f).1 = self ∧ (self.importFromFile f).2 ≠ none)) := by
  refine ⟨?_, ?_, ?_, ?_⟩
  · intro self f
    cases h0 : pickleLoadNth f 0 with
    | error e => right; simp [DetectorsLocation.importFromFile, h0]
    | ok v1 =>
        cases h1 : pickleLoadNth f 1 with
        | error e => right; simp [DetectorsLocation.importFromFile, h0, h1]
        | ok v2 =>
            cases v1 <;> cases v2 <;>
              first
                | (left
                   exact ⟨_, _, rfl, rfl, by simp [DetectorsLocation.importFromFile, h0, h1]⟩)
                | (right; simp [DetectorsLocation.importFromFile, h0, h1])
  · intro self f
    cases h0 : pickleLoadNth f 0 with
    | error e => right; simp [GroundFlowData.importFromFile, h0]
    | ok v =>
        cases v with
        | pDFDList elems =>
            cases elems with
            | nil => right; simp [GroundFlowData.importFromFile, h0]
            | cons d ds =>
                left
                exact ⟨d, ds, rfl, by simp [GroundFlowData.importFromFile, h0]⟩
        | pStrList elems =>
            cases elems <;> (right; simp [GroundFlowData.importFromFile, h0])
        | pDSList elems =>
            cases elems <;> (right; simp [GroundFlowData.importFromFile, h0])
        | pOFDList elems =>
            cases elems <;> (right; simp [GroundFlowData.importFromFile, h0])
        | pInt n => right; simp [GroundFlowData.importFromFile, h0]
        | pStr s => right; simp [GroundFlowData.importFromFile, h0]
        | pDict d => right; simp [GroundFlowData.importFromFile, h0]
  · intro self f
    cases h0 : pickleLoadNth f 0 with
    | error e => right; simp [DetectorIdToRoadSections.importFromFile, h0]
    | ok v =>
        cases v with
        | pDSList elems =>
            cases elems with
            | nil => right; simp [DetectorIdToRoadSections.importFromFile, h0]
            | cons d ds =>
                left
                exact ⟨d, ds, rfl, by simp [DetectorIdToRoadSections.importFromFile, h0]⟩
        | pStrList elems =>
            cases elems <;> (right; simp [DetectorIdToRoadSections.importFromFile, h0])
        | pDFDList elems =>
            cases elems <;> (right; simp [DetectorIdToRoadSections.importFromFile, h0])
        | pOFDList elems =>
            cases elems <;> (right; simp [DetectorIdToRoadSections.importFromFile, h0])
        | pInt n => right; simp [DetectorIdToRoadSections.importFromFile, h0]
        | pStr s => right; simp [DetectorIdToRoadSections.importFromFile, h0]
        | pDict d => right; simp [DetectorIdToRoadSections.importFromFile, h0]
  · intro self f
    cases h0 : pickleLoadNth f 0 with
    | error e => right; simp [OutputFlowDataSet.importFromFile, h0]
    | ok v =>
        cases v with
        | pOFDList elems =>
            cases elems with
            | nil => right; simp [OutputFlowDataSet.importFromFile, h0]
            | cons d ds =>
                left
                exact ⟨d, ds, rfl, by simp [OutputFlowDataSet.importFromFile, h0]⟩
        | pStrList elems =>
            cases elems <;> (right; simp [OutputFlowDataSet.importFromFile, h0])
        | pDFDList elems =>
            cases elems <;> (right; simp [OutputFlowDataSet.importFromFile, h0])
        | pDSList elems =>
            cases elems <;> (right; simp [OutputFlowDataSet.importFromFile, h0])
        | pInt n => right; simp [OutputFlowDataSet.importFromFile, h0]
        | pStr s => right; simp [OutputFlowDataSet.importFromFile, h0]
        | pDict d => right; simp [OutputFlowDataSet.importFromFile, h0]

/-! ## Claim C6 -/

/-- Claim C6 counterexample: importing a plain-text file — exactly what the
repository's test `test_GFD_import_wrong_file_unserialized` writes — makes
`pickle.load` raise the deserialization error, which propagates uncaught (no
try/except wraps the load); the failure is not the "file has incorrect data
type" type-mismatch exception. -/
theorem import_malformed_counterexample :
    GroundFlowData.construct (some (.text "This is not a serialized detector flow data"))
      = .error .unpicklingError
  ∧ PyError.unpicklingError ≠ PyError.typeMismatch := by
  exact ⟨rfl, by decide⟩

/-- Claim C6 amended: importing a file that is not a valid serialized stream
fails for all four collection types, but with the underlying deserialization
error propagating out of `pickle.load` — the import code wraps no exception
handler around deserialization — not with the type-mismatch exception raised
by the schema check. -/
theorem import_malformed_raises_unpickling :
    (∀ (y : Int) (s : String),
       DetectorsLocation.construct y (some (.text s)) = .error .unpicklingError) ∧
    (∀ s : String,
       GroundFlowData.construct (some (.text s)) = .error .unpicklingError) ∧
    (∀ s : String,
       DetectorIdToRoadSections.construct (some (.text s)) = .error .unpicklingError) ∧
    (∀ s : String,
       OutputFlowDataSet.construct (some (.text s)) = .error .unpicklingError) ∧
    PyError.unpicklingError ≠ PyError.typeMismatch :=
  ⟨fun _ _ => rfl, fun _ => rfl, fun _ => rfl, fun _ => rfl, by decide⟩

/-! ## Claim C7 -/

/-- Claim C7: exporting a populated instance to a path where a file already
exists emits exactly one warning (the overwrite warning), raises nothing,
and the file at the path afterwards holds exactly the newly serialized
content, independent of the prior content. -/
theorem export_overwrite_warns_once :
    (∀ (x : DetectorsLocation) (f0 : FileData),
       x.detectors_location_dict ≠ [] → f0 ≠ .absent →
       x.export_to_file f0 = ⟨.stream [.pDict x.detectors_location_dict, .pInt x.year],
         [overwriteWarning], none⟩) ∧
    (∀ (x : GroundFlowData) (f0 : FileData),
       x.detector_flow_data ≠ [] → f0 ≠ .absent →
       x.export_to_file f0 = ⟨.stream [.pDFDList x.detector_flow_data],
         [overwriteWarning], none⟩) ∧
    (∀ (x : DetectorIdToRoadSections) (f0 : FileData),
       x.aimsun_detector_locations ≠ [] → f0 ≠ .absent →
       x.export_to_file f0 = ⟨.stream [.pDSList x.aimsun_detector_locations],
         [overwriteWarning], none⟩) ∧
    (∀ (x : OutputFlowDataSet) (f0 : FileData),
       x.flow_data_set ≠ [] → f0 ≠ .absent →
       x.export_to_file f0 = ⟨.stream [.pOFDList x.flow_data_set],
         [overwriteWarning], none⟩) := by
  have hex : ∀ f : FileData, f ≠ .absent → pathExists f = true := by
    intro f h
    cases f with
    | absent => exact absurd rfl h
    | text s => rfl
    | stream vals => rfl
  refine ⟨?_, ?_, ?_, ?_⟩
  · intro x f0 hne hf
    have h0 : ¬ x.detectors_location_dict.length = 0 := by
      simpa [List.length_eq_zero] using hne
    simp [DetectorsLocation.export_to_file, h0, hex f0 hf]
  · intro x f0 hne hf
    have h0 : ¬ x.detector_flow_data.length = 0 := by
      simpa [List.length_eq_zero] using hne
    simp [GroundFlowData.export_to_file, h0, hex f0 hf]
  · intro x f0 hne hf
    have h0 : ¬ x.aimsun_detector_locations.length = 0 := by
      simpa [List.length_eq_zero] using hne
    simp [DetectorIdToRoadSections.export_to_file, h0, hex f0 hf]
  · intro x f0 hne hf
    have h0 : ¬ x.flow_data_set.length = 0 := by
      simpa [List.length_eq_zero] using hne
    simp [OutputFlowDataSet.export_to_file, h0, hex f0 hf]

/-- Concrete instantiation of the overwrite theorem: each collection type,
populated with one element, exported over a pre-existing plain-text file. -/
theorem export_overwrite_warns_once_witness :
    (DetectorsLocation.mk [(1, .north_bound, ⟨1, 2⟩)] 2021).export_to_file
        (.text "This file is existing.")
      = ⟨.stream [.pDict [(1, .north_bound, ⟨1, 2⟩)], .pInt 2021],
         [overwriteWarning], none⟩ ∧
    (GroundFlowData.mk [⟨7, .east_bound, [(5, 3)], "d7", 2021⟩]).export_to_file
        (.text "This file is existing.")
      = ⟨.stream [.pDFDList [⟨7, .east_bound, [(5, 3)], "d7", 2021⟩]],
         [overwriteWarning], none⟩ ∧
    (DetectorIdToRoadSections.mk [⟨3, 4⟩]).export_to_file
        (.text "This file is existing.")
      = ⟨.stream [.pDSList [⟨3, 4⟩]], [overwriteWarning], none⟩ ∧
    (OutputFlowDataSet.mk [⟨7, [(5, 3)], 4⟩] 2021).export_to_file
        (.text "This file is existing.")
      = ⟨.stream [.pOFDList [⟨7, [(5, 3)], 4⟩]], [overwriteWarning], none⟩ :=
  ⟨export_overwrite_warns_once.1 _ _ (by decide) (by decide),
   export_overwrite_warns_once.2.1 _ _ (by decide) (by decide),
   export_overwrite_warns_once.2.2.1 _ _ (by decide) (by decide),
   export_overwrite_warns_once.2.2.2 _ _ (by decide) (by decide)⟩

/-! ## Claim C8 -/

/-- Claim C8: `OutputFlowDataSet` equality is determined solely by the two
`flow_data_set` lists — replacing either operand's `year` by any other value
never changes the comparison result. -/
theorem ofds_eq_ignores_year :
    ∀ (fds1 fds2 : List OutputFlowData) (y1 y2 y1' y2' : Int),
      OutputFlowDataSet.eq ⟨fds1, y1⟩ ⟨fds2, y2⟩
        = OutputFlowDataSet.eq ⟨fds1, y1'⟩ ⟨fds2, y2'⟩ :=
  fun _ _ _ _ _ _ => rfl

/-! ## Claim C9 -/

/-- Claim C9: for each of the three list-based collection types, importing a
file whose pickled value is the empty list raises `IndexError` — the
validation evaluates `imported_data[0]` without guarding against emptiness —
rather than the type-mismatch exception. -/
theorem import_empty_list_index_error :
    ∀ v : PValue, v.isEmptyList = true →
      (∀ self : GroundFlowData,
         self.importFromFile (.stream [v]) = (self, some .indexError)) ∧
      (∀ self : DetectorIdToRoadSections,
         self.importFromFile (.stream [v]) = (self, some .indexError)) ∧
      (∀ self : OutputFlowDataSet,
         self.importFromFile (.stream [v]) = (self, some .indexError)) ∧
      PyError.indexError ≠ PyError.typeMismatch := by
  intro v hv
  cases v with
  | pInt n => simp [PValue.isEmptyList] at hv
  | pStr s => simp [PValue.isEmptyList] at hv
  | pDict d => simp [PValue.isEmptyList] at hv
  | pStrList elems =>
      cases elems with
      | nil => exact ⟨fun _ => rfl, fun _ => rfl, fun _ => rfl, by decide⟩
      | cons e es => simp [PValue.isEmptyList] at hv
  | pDFDList elems =>
      cases elems with
      | nil => exact ⟨fun _ => rfl, fun _ => rfl, fun _ => rfl, by decide⟩
      | cons e es => simp [PValue.isEmptyList] at hv
  | pDSList elems =>
      cases elems with
      | nil => exact ⟨fun _ => rfl, fun _ => rfl, fun _ => rfl, by decide⟩
      | cons e es => simp [PValue.isEmptyList] at hv
  | pOFDList elems =>
      cases elems with
      | nil => exact ⟨fun _ => rfl, fun _ => rfl, fun _ => rfl, by decide⟩
      | cons e es => simp [PValue.isEmptyList] at hv

/-- Concrete instantiation of the empty-list import theorem at a file holding
one pickled empty list. -/
theorem import_empty_list_index_error_witness :
    (GroundFlowData.mk [⟨7, .east_bound, [], "d7", 2021⟩]).importFromFile
        (.stream [.pDFDList []])
      = (GroundFlowData.mk [⟨7, .east_bound, [], "d7", 2021⟩], some .indexError) ∧
    (DetectorIdToRoadSections.mk [⟨3, 4⟩]).importFromFile (.stream [.pDFDList []])
      = (DetectorIdToRoadSections.mk [⟨3, 4⟩], some .indexError) ∧
    (OutputFlowDataSet.mk [] 0).importFromFile (.stream [.pDFDList []])
      = (OutputFlowDataSet.mk [] 0, some .indexError) :=
  ⟨(import_empty_list_index_error (.pDFDList []) rfl).1 _,
   (import_empty_list_index_error (.pDFDList []) rfl).2.1 _,
   (import_empty_list_index_error (.pDFDList []) rfl).2.2.1 _⟩

/-! ## Claim C10 -/

/-- Claim C10: when a `DetectorsLocation` is constructed with a filepath and
the import succeeds, the instance's `year` equals the year deserialized from
the file, not the constructor argument: `_import_from_file` reassigns
`self.year` after `__init__` set it. -/
theorem constructor_year_overridden_by_import :
    ∀ (y y' : Int) (d : List (Int × Direction × Point)),
      DetectorsLocation.construct y (some (.stream [.pDict d, .pInt y'])) = .ok ⟨d, y'⟩ :=
  fun _ _ _ => rfl

end Flow
